import Mathlib

/-!
Verification of the call-record CRUD service (`src/app.py`).

The service is a thin Flask layer over a single SQLite table
`calls (id INTEGER PRIMARY KEY, from_number TEXT NOT NULL,
to_number TEXT NOT NULL, start_time TEXT NOT NULL)`.
We embed it shallowly:

* the store is a `List CallRecord` in insertion (rowid) order;
* SQL values that may be `NULL` are `Option String`; the `NOT NULL`
  column constraints are enforced by the embedded insert/update
  operations, which fail with `SqlError.integrityError` exactly when
  SQLite would raise `sqlite3.IntegrityError`;
* each Flask handler becomes a Lean function on the store.  A handler
  that contains no `try/except` around a failing statement is embedded
  in `Except SqlError`, where `Except.error` models a Python exception
  escaping the handler uncaught; handlers that cannot raise (or catch
  everything they can raise) are total functions;
* Python list slicing `rows[start:end]` (with its negative-index and
  clamping semantics) is `pySlice`;
* Flask's falsy test `if not phone` on an optional query parameter is
  spelled out: it holds for the absent parameter and for `""`.
-/

/-- One row of the `calls` table.  `from_number` / `to_number` are
`Option String` because SQL columns are nullable at the type level; the
`NOT NULL` constraints of the schema are enforced by the write
operations below, not by this type. -/
structure CallRecord where
  id : Nat
  from_number : Option String
  to_number : Option String
  start_time : String
deriving DecidableEq

/-- The errors SQLite raises that this program can encounter:
`sqlite3.IntegrityError` from a `NOT NULL` constraint violation. -/
inductive SqlError where
  | integrityError
deriving DecidableEq

/-- The distinct JSON bodies the handlers in `app.py` produce.  Distinct
constructors correspond to syntactically distinct JSON payloads. -/
inductive Body where
  /-- Payload `{"success": true}` returned by `initiate_call`. -/
  | successTrue
  /-- Payload `("Input not Valid", {"Sample Input": ...})` returned by
  `initiate_call` on `sqlite3.IntegrityError`. -/
  | inputNotValid
  /-- Payload `{"success": false, "Provide query": "phone"}` returned by
  `get_call_report` when `phone` is absent or empty. -/
  | providePhone
  /-- Payload `{"success": false, "phone": "Not Valid"}` returned by
  `get_call_report` when the paginated slice is empty. -/
  | phoneNotValid
  /-- Payload `{"success": true, "data": [...]}` returned by
  `get_call_report` with the paginated rows. -/
  | reportData (rows : List CallRecord)
  /-- Payload `("Call Record Updated", {"success": true})`. -/
  | callUpdated
  /-- Payload `("Call Record Deleted", {"success": true})`. -/
  | callDeleted
  /-- Payload `{"error": "Call not found"}`. -/
  | callNotFound
deriving DecidableEq

/-- A JSON body together with its HTTP status code.  Flask's default
status for a bare `jsonify(...)` return is 200. -/
structure HttpResponse where
  body : Body
  status : Nat
deriving DecidableEq

/-- The rowid SQLite assigns to a fresh row of a table whose
`INTEGER PRIMARY KEY` is left unspecified: one more than the largest
existing rowid (1 for an empty table). -/
def nextId (s : List CallRecord) : Nat :=
  (s.map (fun r => r.id)).foldr max 0 + 1

/-- `INSERT INTO calls (from_number, to_number, start_time) VALUES (?,?,?)`:
fails with an integrity error when a `NOT NULL` column receives `NULL`,
otherwise appends the new row. -/
def dbInsert (s : List CallRecord) (fromN toN : Option String)
    (ts : String) : Except SqlError (List CallRecord) :=
  if fromN.isNone || toN.isNone then
    .error .integrityError
  else
    .ok (s ++ [⟨nextId s, fromN, toN, ts⟩])

/-- `SELECT id, from_number, to_number, start_time FROM calls WHERE
from_number = ? OR to_number = ?`, both parameters bound to `phone`.
SQL equality against a stored `NULL` is not satisfied, which the
`Option` equality reproduces. -/
def dbSelectByPhone (s : List CallRecord) (phone : String) :
    List CallRecord :=
  s.filter (fun r =>
    r.from_number == some phone || r.to_number == some phone)

/-- `UPDATE calls SET from_number = ?, to_number = ? WHERE id = ?`:
SQLite checks the `NOT NULL` constraints on each affected row, so the
statement fails iff some row matches the `WHERE` clause and a new value
is `NULL`; otherwise every matching row is overwritten in place. -/
def dbUpdate (s : List CallRecord) (i : Nat) (fromN toN : Option String) :
    Except SqlError (List CallRecord) :=
  if (s.any (fun r => r.id == i)) && (fromN.isNone || toN.isNone) then
    .error .integrityError
  else
    .ok (s.map (fun r =>
      if r.id == i then { r with from_number := fromN, to_number := toN }
      else r))

/-- `DELETE FROM calls WHERE id = ?`: removes every matching row,
preserving the order of the rest.  Cannot raise. -/
def dbDelete (s : List CallRecord) (i : Nat) : List CallRecord :=
  s.filter (fun r => !(r.id == i))

/-- Python index resolution for a slice bound on a list of length `n`:
a negative index counts from the end, and the result is clamped to
`[0, n]`. -/
def pyIndex (n : Nat) (i : Int) : Nat :=
  if i < 0 then (i + n).toNat else min i.toNat n

/-- Python list slicing `l[start:stop]` with integer bounds. -/
def pySlice {α : Type} (l : List α) (start stop : Int) : List α :=
  (l.take (pyIndex l.length stop)).drop (pyIndex l.length start)

/-- Handler `POST /initiate-call` (`initiate_call` in `app.py`).
Inputs are `request.json.get('from_number')` / `...('to_number')`
(`none` when the key is absent or bound to JSON `null`) and the
timestamp `datetime.now().isoformat()` (always a string, never null).
The whole body is wrapped in `try/except sqlite3.IntegrityError`, so
the handler always produces a response; on the error path nothing was
committed, so the store is returned unchanged. -/
def initiate_call (s : List CallRecord) (fromN toN : Option String)
    (ts : String) : List CallRecord × HttpResponse :=
  match dbInsert s fromN toN ts with
  | .ok s' => (s', ⟨.successTrue, 200⟩)
  | .error .integrityError => (s, ⟨.inputNotValid, 500⟩)

/-- Handler `GET /call-report` (`get_call_report` in `app.py`).
`phone` is `request.args.get('phone')`; `if not phone` rejects both the
absent parameter and the empty string.  `page` and `page_size` arrive
as arbitrary integers (defaults 1 and 10 are applied by Flask before
this point).  The handler only reads the store. -/
def get_call_report (s : List CallRecord) (phone : Option String)
    (page pageSize : Int) : HttpResponse :=
  match phone with
  | none => ⟨.providePhone, 500⟩
  | some p =>
    if p = "" then ⟨.providePhone, 500⟩
    else
      let rows := dbSelectByPhone s p
      let startIndex := (page - 1) * pageSize
      let endIndex := startIndex + pageSize
      let paginated := pySlice rows startIndex endIndex
      if paginated = [] then ⟨.phoneNotValid, 500⟩
      else ⟨.reportData paginated, 200⟩

/-- Handler `PUT /update-call/<int:id>` (`update_call` in `app.py`).
First a `SELECT * FROM calls WHERE id = ?`; if no row is found the
handler returns 404 without touching the store.  Otherwise it runs the
`UPDATE`, which has no surrounding `try/except`: an integrity error
(new value `NULL` on a `NOT NULL` column) escapes the handler uncaught,
which the `Except.error` result models. -/
def update_call (s : List CallRecord) (i : Nat)
    (fromN toN : Option String) :
    Except SqlError (List CallRecord × HttpResponse) :=
  if s.any (fun r => r.id == i) then
    match dbUpdate s i fromN toN with
    | .error e => .error e
    | .ok s' => .ok (s', ⟨.callUpdated, 200⟩)
  else
    .ok (s, ⟨.callNotFound, 404⟩)

/-- Handler `DELETE /delete-call/<int:id>` (`delete_call` in `app.py`).
`SELECT` first; 404 if absent, otherwise the `DELETE` runs (it cannot
violate any constraint, hence cannot raise). -/
def delete_call (s : List CallRecord) (i : Nat) :
    List CallRecord × HttpResponse :=
  if s.any (fun r => r.id == i) then
    (dbDelete s i, ⟨.callDeleted, 200⟩)
  else
    (s, ⟨.callNotFound, 404⟩)

/-- A small concrete store used to instantiate the universally
quantified theorems below: records 1 and 2 originate from phone
`"100"`, record 3 terminates at it. -/
def sampleStore : List CallRecord :=
  [⟨1, some "100", some "200", "t1"⟩,
   ⟨2, some "100", some "300", "t2"⟩,
   ⟨3, some "400", some "100", "t3"⟩]

/-! ### Slice lemmas -/

/-- A slice with nonnegative bounds `a` and `a + b` is drop-then-take. -/
theorem pySlice_natCast {α : Type} (l : List α) (a b : Nat) :
    pySlice l (a : Int) ((a : Int) + (b : Int)) = (l.drop a).take b := by
  have hcast : (a : Int) + (b : Int) = ((a + b : Nat) : Int) := by push_cast; ring
  rw [hcast]
  unfold pySlice pyIndex
  have h1 : ¬ ((a : Int) < 0) := by omega
  have h2 : ¬ (((a + b : Nat) : Int) < 0) := by omega
  simp only [h1, h2, if_false, ite_false, Int.toNat_natCast]
  have htake : l.take (min (a + b) l.length) = l.take (a + b) := by
    rcases le_total (a + b) l.length with h | h
    · rw [Nat.min_eq_left h]
    · rw [Nat.min_eq_right h, List.take_length, List.take_of_length_le h]
  rw [htake]
  have hdrop : (l.take (a + b)).drop (min a l.length) =
      (l.take (a + b)).drop a := by
    rcases le_total a l.length with h | h
    · rw [Nat.min_eq_left h]
    · rw [Nat.min_eq_right h]
      have hlen : (l.take (a + b)).length ≤ l.length := by
        simp [List.length_take]
      rw [List.drop_eq_nil_of_le hlen, List.drop_eq_nil_of_le (hlen.trans h)]
  rw [hdrop, List.drop_take]
  congr 1
  omega

/-- A slice whose stop bound is `0` is empty. -/
theorem pySlice_stop_zero {α : Type} (l : List α) (start : Int) :
    pySlice l start 0 = [] := by
  unfold pySlice pyIndex
  simp

/-- Every element of a slice is an element of the list. -/
theorem mem_of_mem_pySlice {α : Type} {l : List α} {a b : Int} {x : α}
    (h : x ∈ pySlice l a b) : x ∈ l := by
  unfold pySlice at h
  exact List.mem_of_mem_take (List.mem_of_mem_drop h)

/-! ### Handler characterizations -/

/-- The row-existence test `s.any (r.id == i)` of the handlers is the
existence of a record with that id. -/
theorem any_id_iff {s : List CallRecord} {i : Nat} :
    s.any (fun r => r.id == i) = true ↔ ∃ r ∈ s, r.id = i := by
  simp [List.any_eq_true]

/-- For a non-empty phone, a page `p ≥ 1` and a page size `k ≥ 1`,
`get_call_report` returns the drop-then-take slice of the matching
rows, or the empty-page failure when that slice is empty. -/
theorem get_call_report_eq_slice (s : List CallRecord) (phone : String)
    (hph : phone ≠ "") (p k : Int) (hp : 1 ≤ p) (hk : 1 ≤ k) :
    get_call_report s (some phone) p k =
      if ((dbSelectByPhone s phone).drop ((p - 1) * k).toNat).take k.toNat = []
      then ⟨.phoneNotValid, 500⟩
      else ⟨.reportData
        (((dbSelectByPhone s phone).drop ((p - 1) * k).toNat).take k.toNat),
        200⟩ := by
  have hnn : (0 : Int) ≤ (p - 1) * k := mul_nonneg (by omega) (by omega)
  obtain ⟨a, ha⟩ : ∃ a : Nat, (p - 1) * k = (a : Int) :=
    ⟨((p - 1) * k).toNat, (Int.toNat_of_nonneg hnn).symm⟩
  obtain ⟨b, hb⟩ : ∃ b : Nat, k = (b : Int) :=
    ⟨k.toNat, (Int.toNat_of_nonneg (by omega)).symm⟩
  simp only [get_call_report, hph, if_false, ite_false]
  rw [ha, hb, Int.toNat_natCast, Int.toNat_natCast, pySlice_natCast]

/-- Rows returned in a successful report payload all come from the
store. -/
theorem get_call_report_data_sub (s : List CallRecord)
    (phone : Option String) (page k : Int) (rows : List CallRecord)
    (h : get_call_report s phone page k = ⟨.reportData rows, 200⟩) :
    ∀ r ∈ rows, r ∈ s := by
  intro r hr
  match phone with
  | none => simp [get_call_report] at h
  | some ph =>
    by_cases hph : ph = ""
    · simp [get_call_report, hph] at h
    · simp only [get_call_report, hph, if_false, ite_false] at h
      split at h
      · simp at h
      · have hrows : pySlice (dbSelectByPhone s ph)
            ((page - 1) * k) ((page - 1) * k + k) = rows := by
          simpa using h
        rw [← hrows] at hr
        exact List.mem_of_mem_filter (mem_of_mem_pySlice hr)

/-- Pointwise relation between a list and its map. -/
theorem forall2_map_refl {α : Type} {R : α → α → Prop} (f : α → α)
    (l : List α) (h : ∀ a ∈ l, R a (f a)) :
    List.Forall₂ R l (l.map f) := by
  induction l with
  | nil => exact List.Forall₂.nil
  | cons x xs ih =>
    exact List.Forall₂.cons (h x (List.mem_cons_self x xs))
      (ih fun a ha => h a (List.mem_cons_of_mem x ha))

/-! ### Claim theorems -/

/-- C1 (amended: the phone must be non-empty; see the counterexample
for the empty phone, which the handler's `if not phone` guard rejects
before any slicing).  For every store, non-empty phone string, page
`p ≥ 1` and page size `k ≥ 1`, `get_call_report` returns exactly the
slice `[(p-1)k, (p-1)k + k)` of the insertion-ordered sequence of
records whose `from_number` or `to_number` equals the phone, and when
that slice is empty it reports the failure payload instead of data. -/
theorem listByPhone_paginates (s : List CallRecord) (phone : String)
    (hph : phone ≠ "") (p k : Int) (hp : 1 ≤ p) (hk : 1 ≤ k) :
    get_call_report s (some phone) p k =
      if ((dbSelectByPhone s phone).drop ((p - 1) * k).toNat).take k.toNat = []
      then ⟨.phoneNotValid, 500⟩
      else ⟨.reportData
        (((dbSelectByPhone s phone).drop ((p - 1) * k).toNat).take k.toNat),
        200⟩ :=
  get_call_report_eq_slice s phone hph p k hp hk

/-- Witness for C1: page 2 of size 2 over the three matching records of
`sampleStore`. -/
theorem listByPhone_paginates_witness :
    get_call_report sampleStore (some "100") 2 2 =
      if ((dbSelectByPhone sampleStore "100").drop
            (((2 : Int) - 1) * 2).toNat).take (2 : Int).toNat = []
      then ⟨.phoneNotValid, 500⟩
      else ⟨.reportData
        (((dbSelectByPhone sampleStore "100").drop
            (((2 : Int) - 1) * 2).toNat).take (2 : Int).toNat),
        200⟩ :=
  listByPhone_paginates sampleStore "100" (by decide) 2 2 (by decide)
    (by decide)

/-- C1 counterexample: a record with an empty `from_number` can be
stored, yet requesting exactly that phone `""` (page 1, size 1) is
turned away by the `if not phone` guard with the missing-parameter
payload, not with the non-empty slice the claim demands. -/
theorem listByPhone_empty_phone_cex :
    ((dbSelectByPhone [⟨1, some "", some "5", "t"⟩] "").drop
        (((1 : Int) - 1) * 1).toNat).take (1 : Int).toNat ≠ [] ∧
    get_call_report [⟨1, some "", some "5", "t"⟩] (some "") 1 1 ≠
      ⟨.reportData (((dbSelectByPhone [⟨1, some "", some "5", "t"⟩] "").drop
          (((1 : Int) - 1) * 1).toNat).take (1 : Int).toNat), 200⟩ ∧
    get_call_report [⟨1, some "", some "5", "t"⟩] (some "") 1 1 =
      ⟨.providePhone, 500⟩ := by
  decide

/-- C2: creating a call with a null `from_number` or `to_number` hits
the `NOT NULL` constraint, which `initiate_call` catches, answering the
error payload with status 500; the store is unchanged, no row is
persisted. -/
theorem create_null_rejected (s : List CallRecord)
    (fromN toN : Option String) (ts : String)
    (h : fromN = none ∨ toN = none) :
    initiate_call s fromN toN ts = (s, ⟨.inputNotValid, 500⟩) := by
  rcases h with h | h <;> simp [initiate_call, dbInsert, h]

/-- Witness for C2: a null `from_number` on the sample store. -/
theorem create_null_rejected_witness :
    initiate_call sampleStore none (some "9") "t9" =
      (sampleStore, ⟨.inputNotValid, 500⟩) :=
  create_null_rejected sampleStore none (some "9") "t9" (Or.inl rfl)

/-- C3 counterexample: on a store holding record 1, updating record 1
with a null `from_number` makes the `UPDATE` statement violate the
`NOT NULL` constraint; `update_call` has no `try/except`, so the
exception escapes the handler instead of becoming a JSON payload. -/
theorem update_null_uncaught_cex :
    update_call [⟨1, some "a", some "b", "t"⟩] 1 none (some "c") =
      Except.error SqlError.integrityError := rfl

/-- C3 (amended): an uncaught exception escapes a handler exactly in
one situation — `update_call` on an existing id with a null
`from_number` or `to_number`; every other input to every handler
produces a JSON response (`initiate_call` catches its only possible
error, and the report and delete handlers cannot raise). -/
theorem update_call_uncaught_iff (s : List CallRecord) (i : Nat)
    (fromN toN : Option String) :
    (∃ e, update_call s i fromN toN = Except.error e) ↔
      ((∃ r ∈ s, r.id = i) ∧ (fromN = none ∨ toN = none)) := by
  by_cases hx : s.any (fun r => r.id == i)
  · by_cases hnull : (fromN.isNone || toN.isNone)
    · have hres : update_call s i fromN toN =
          Except.error SqlError.integrityError := by
        simp [update_call, dbUpdate, hx, hnull]
      refine ⟨fun _ => ⟨any_id_iff.mp hx, ?_⟩,
        fun _ => ⟨SqlError.integrityError, hres⟩⟩
      simpa [Option.isNone_iff_eq_none] using hnull
    · have hres : ∃ pr, update_call s i fromN toN = Except.ok pr := by
        simp [update_call, dbUpdate, hx, hnull]
      obtain ⟨pr, hres⟩ := hres
      rw [hres]
      constructor
      · rintro ⟨e, he⟩
        exact absurd he (by simp)
      · rintro ⟨-, hn⟩
        have : (fromN.isNone || toN.isNone) = true := by
          rcases hn with h | h <;> simp [h]
        exact absurd this hnull
  · have hres : update_call s i fromN toN =
        Except.ok (s, ⟨.callNotFound, 404⟩) := by
      simp [update_call, hx]
    rw [hres]
    constructor
    · rintro ⟨e, he⟩
      exact absurd he (by simp)
    · rintro ⟨hmem, -⟩
      exact absurd (any_id_iff.mpr hmem) hx

/-- C4 counterexample: updating existing record 2 with a null
`to_number` does not succeed and stores nothing — the `NOT NULL`
constraint rejects the `UPDATE` and the error escapes uncaught. -/
theorem update_null_not_stored_cex :
    update_call [⟨2, some "x", some "y", "t0"⟩] 2 (some "x") none =
      Except.error SqlError.integrityError := rfl

/-- C4 (amended): the update handler itself performs no nullness
validation, but the schema's `NOT NULL` constraints do: on an existing
id with a null new value the `UPDATE` fails with a constraint
violation that — unlike in create, where the same null inputs yield a
caught error payload — escapes `update_call` uncaught; the null value
is never stored. -/
theorem update_null_asymmetry (s : List CallRecord) (i : Nat)
    (fromN toN : Option String) (ts : String)
    (hmem : ∃ r ∈ s, r.id = i) (hnull : fromN = none ∨ toN = none) :
    update_call s i fromN toN = Except.error SqlError.integrityError ∧
    initiate_call s fromN toN ts = (s, ⟨.inputNotValid, 500⟩) := by
  have hx : s.any (fun r => r.id == i) = true := any_id_iff.mpr hmem
  have hn : (fromN.isNone || toN.isNone) = true := by
    rcases hnull with h | h <;> simp [h]
  constructor
  · simp [update_call, dbUpdate, hx, hn]
  · rcases hnull with h | h <;> simp [initiate_call, dbInsert, h]

/-- Witness for C4: record 3 of the sample store, null `to_number`. -/
theorem update_null_asymmetry_witness :
    update_call sampleStore 3 (some "7") none =
      Except.error SqlError.integrityError ∧
    initiate_call sampleStore (some "7") none "t9" =
      (sampleStore, ⟨.inputNotValid, 500⟩) :=
  update_null_asymmetry sampleStore 3 (some "7") none "t9" (by decide)
    (Or.inr rfl)

/-- C5: a successful update — non-null values on an existing id —
answers the success payload and rewrites the store pointwise: every
record keeps its `id` and `start_time`, a record whose id differs from
the target is completely unchanged, and the record with the target id
gets exactly the new `from_number` and `to_number`. -/
theorem update_success_frame (s : List CallRecord) (i : Nat)
    (f t : String) (hmem : ∃ r ∈ s, r.id = i) :
    ∃ s', update_call s i (some f) (some t) =
        Except.ok (s', ⟨.callUpdated, 200⟩) ∧
      List.Forall₂ (fun r r' =>
        r'.id = r.id ∧ r'.start_time = r.start_time ∧
        (r.id ≠ i → r' = r) ∧
        (r.id = i → r'.from_number = some f ∧ r'.to_number = some t))
        s s' := by
  have hx : s.any (fun r => r.id == i) = true := any_id_iff.mpr hmem
  refine ⟨s.map (fun r => if r.id == i then
      { r with from_number := some f, to_number := some t } else r),
    ?_, ?_⟩
  · simp [update_call, dbUpdate, hx]
  · refine forall2_map_refl _ s fun r hr => ?_
    by_cases hid : r.id = i
    · simp [hid]
    · simp [hid]

/-- Witness for C5: record 2 of the sample store updated to new
numbers. -/
theorem update_success_frame_witness :
    ∃ s', update_call sampleStore 2 (some "777") (some "888") =
        Except.ok (s', ⟨.callUpdated, 200⟩) ∧
      List.Forall₂ (fun r r' =>
        r'.id = r.id ∧ r'.start_time = r.start_time ∧
        (r.id ≠ 2 → r' = r) ∧
        (r.id = 2 → r'.from_number = some "777" ∧
          r'.to_number = some "888"))
        sampleStore s' :=
  update_success_frame sampleStore 2 "777" "888" (by decide)

/-- C6: on an id that no record carries, both the update and the delete
handler stop at their existence check, answer the not-found payload
with status 404, and hand the store back untouched — nothing is
created, modified or removed. -/
theorem notfound_leaves_store (s : List CallRecord) (i : Nat)
    (fromN toN : Option String) (h : ∀ r ∈ s, r.id ≠ i) :
    update_call s i fromN toN = Except.ok (s, ⟨.callNotFound, 404⟩) ∧
    delete_call s i = (s, ⟨.callNotFound, 404⟩) := by
  have hx : ¬ (s.any (fun r => r.id == i) = true) := by
    intro hc
    obtain ⟨r, hr, hid⟩ := any_id_iff.mp hc
    exact h r hr hid
  constructor
  · simp [update_call, hx]
  · simp [delete_call, hx]

/-- Witness for C6: id 99 is absent from the sample store. -/
theorem notfound_leaves_store_witness :
    update_call sampleStore 99 (some "7") (some "8") =
      Except.ok (sampleStore, ⟨.callNotFound, 404⟩) ∧
    delete_call sampleStore 99 = (sampleStore, ⟨.callNotFound, 404⟩) :=
  notfound_leaves_store sampleStore 99 (some "7") (some "8") (by decide)

/-- C7: deleting an existing id (ids are unique, `id` being the primary
key) succeeds and removes exactly that record — the store splits as
`l1 ++ r :: l2` with `r` the record deleted and `l1 ++ l2` the
resulting store — and afterwards no record with that id remains, so no
successful `get_call_report` on the new store ever lists that id. -/
theorem delete_removes_exactly (s : List CallRecord) (i : Nat)
    (hnd : (s.map (fun r => r.id)).Nodup)
    (hmem : ∃ r ∈ s, r.id = i) :
    ∃ l1 r l2, s = l1 ++ r :: l2 ∧ r.id = i ∧
      delete_call s i = (l1 ++ l2, ⟨.callDeleted, 200⟩) ∧
      (∀ r' ∈ l1 ++ l2, r'.id ≠ i) ∧
      (∀ phone page k rows,
        get_call_report (l1 ++ l2) (some phone) page k =
          ⟨.reportData rows, 200⟩ → ∀ r' ∈ rows, r'.id ≠ i) := by
  obtain ⟨r, hr, hid⟩ := hmem
  obtain ⟨l1, l2, rfl⟩ := List.append_of_mem hr
  rw [List.map_append, List.map_cons] at hnd
  have hnotin : ∀ r' ∈ l1 ++ l2, r'.id ≠ i := by
    have hd1 : r.id ∉ l1.map (fun x => x.id) := fun hin =>
      (List.disjoint_of_nodup_append hnd) hin (List.mem_cons_self _ _)
    have hd2 : r.id ∉ l2.map (fun x => x.id) :=
      (List.nodup_cons.mp (List.nodup_append.mp hnd).2.1).1
    intro r' hr' he
    rcases List.mem_append.mp hr' with hA | hB
    · have hmm : r'.id ∈ l1.map (fun x => x.id) :=
        List.mem_map_of_mem _ hA
      rw [he, ← hid] at hmm
      exact hd1 hmm
    · have hmm : r'.id ∈ l2.map (fun x => x.id) :=
        List.mem_map_of_mem _ hB
      rw [he, ← hid] at hmm
      exact hd2 hmm
  have hx : (l1 ++ r :: l2).any (fun x => x.id == i) = true :=
    any_id_iff.mpr ⟨r, by simp, hid⟩
  have hdel : dbDelete (l1 ++ r :: l2) i = l1 ++ l2 := by
    unfold dbDelete
    rw [List.filter_append, List.filter_cons]
    have hrf : (!(r.id == i)) = false := by simp [hid]
    rw [hrf]
    have hf1 : l1.filter (fun x => !(x.id == i)) = l1 :=
      List.filter_eq_self.mpr fun x hx1 => by
        simp [hnotin x (List.mem_append_left _ hx1)]
    have hf2 : l2.filter (fun x => !(x.id == i)) = l2 :=
      List.filter_eq_self.mpr fun x hx2 => by
        simp [hnotin x (List.mem_append_right _ hx2)]
    simp [hf1, hf2]
  refine ⟨l1, r, l2, rfl, hid, ?_, hnotin, ?_⟩
  · simp only [delete_call, hx, if_true, ite_true, hdel]
  · intro phone page k rows hrep r' hr'
    exact hnotin r' (get_call_report_data_sub _ _ _ _ _ hrep r' hr')

/-- Witness for C7: deleting record 2 of the sample store. -/
theorem delete_removes_exactly_witness :
    ∃ l1 r l2, sampleStore = l1 ++ r :: l2 ∧ r.id = 2 ∧
      delete_call sampleStore 2 = (l1 ++ l2, ⟨.callDeleted, 200⟩) ∧
      (∀ r' ∈ l1 ++ l2, r'.id ≠ 2) ∧
      (∀ phone page k rows,
        get_call_report (l1 ++ l2) (some phone) page k =
          ⟨.reportData rows, 200⟩ → ∀ r' ∈ rows, r'.id ≠ 2) :=
  delete_removes_exactly sampleStore 2 (by decide) (by decide)

/-- C8 counterexample: the `NOT NULL` constraints do not reject empty
strings — creating a call with an empty `from_number` succeeds and
persists the row, so non-emptiness is not an invariant of the store. -/
theorem create_empty_string_cex :
    initiate_call [] (some "") (some "9") "t" =
      ([⟨1, some "", some "9", "t"⟩], ⟨.successTrue, 200⟩) := rfl

/-- C8 (amended): every record admitted by a successful create has a
non-NULL `from_number` and `to_number` — create fails rather than
persisting a row when either field is null — but empty strings are
accepted, so the invariant of stored records is non-nullness, not
non-emptiness. -/
theorem create_success_nonnull (s : List CallRecord)
    (fromN toN : Option String) (ts : String)
    (h : (initiate_call s fromN toN ts).2.body = Body.successTrue) :
    ∃ a b, fromN = some a ∧ toN = some b ∧
      (initiate_call s fromN toN ts).1 =
        s ++ [⟨nextId s, some a, some b, ts⟩] := by
  match fromN, toN with
  | none, _ => simp [initiate_call, dbInsert] at h
  | some a, none => simp [initiate_call, dbInsert] at h
  | some a, some b =>
    exact ⟨a, b, rfl, rfl, by simp [initiate_call, dbInsert]⟩

/-- Witness for C8: a successful create on the sample store appends one
row with the given non-null numbers. -/
theorem create_success_nonnull_witness :
    ∃ a b, (some "7" : Option String) = some a ∧
      (some "8" : Option String) = some b ∧
      (initiate_call sampleStore (some "7") (some "8") "t4").1 =
        sampleStore ++ [⟨nextId sampleStore, some a, some b, "t4"⟩] :=
  create_success_nonnull sampleStore (some "7") (some "8") "t4" rfl

/-- C9: the response for a phone with no matching records equals the
response for a phone whose matches exist but whose requested page lies
entirely beyond them: both are the identical failure payload with
status 500, indistinguishable from the response alone. -/
theorem report_empty_indistinct (s1 : List CallRecord) (ph1 : String)
    (p1 k1 : Int) (s2 : List CallRecord) (ph2 : String) (p2 k2 : Int)
    (h1 : ph1 ≠ "") (hz : dbSelectByPhone s1 ph1 = [])
    (h2 : ph2 ≠ "") (hm : dbSelectByPhone s2 ph2 ≠ [])
    (hp2 : 1 ≤ p2) (hk2 : 1 ≤ k2)
    (hbeyond : ((dbSelectByPhone s2 ph2).length : Int) ≤ (p2 - 1) * k2) :
    get_call_report s1 (some ph1) p1 k1 =
      get_call_report s2 (some ph2) p2 k2 ∧
    get_call_report s1 (some ph1) p1 k1 = ⟨.phoneNotValid, 500⟩ := by
  have hA : get_call_report s1 (some ph1) p1 k1 =
      ⟨.phoneNotValid, 500⟩ := by
    simp [get_call_report, h1, hz, pySlice]
  have hB : get_call_report s2 (some ph2) p2 k2 =
      ⟨.phoneNotValid, 500⟩ := by
    rw [get_call_report_eq_slice s2 ph2 h2 p2 k2 hp2 hk2]
    have hdrop : (dbSelectByPhone s2 ph2).drop ((p2 - 1) * k2).toNat
        = [] := by
      apply List.drop_eq_nil_of_le
      omega
    rw [hdrop]
    simp
  exact ⟨hA.trans hB.symm, hA⟩

/-- Witness for C9: phone 555 never appears in the sample store; phone
100 has three matches but page 3 of size 2 starts at row 4. -/
theorem report_empty_indistinct_witness :
    get_call_report sampleStore (some "555") 1 3 =
      get_call_report sampleStore (some "100") 3 2 ∧
    get_call_report sampleStore (some "555") 1 3 =
      ⟨.phoneNotValid, 500⟩ :=
  report_empty_indistinct sampleStore "555" 1 3 sampleStore "100" 3 2
    (by decide) (by decide) (by decide) (by decide) (by decide)
    (by decide) (by decide)

/-- C10: page 0 is not rejected; the handler computes the slice from
index `-k` to index `0`, which is empty for every match list, so the
request always ends in the empty-page failure even when matching
records exist. -/
theorem report_page_zero (s : List CallRecord) (phone : String)
    (hph : phone ≠ "") (k : Int) (hk : 1 ≤ k) :
    pySlice (dbSelectByPhone s phone) (-k) 0 = [] ∧
    get_call_report s (some phone) 0 k = ⟨.phoneNotValid, 500⟩ := by
  refine ⟨pySlice_stop_zero _ _, ?_⟩
  have h1 : ((0 : Int) - 1) * k = -k := by ring
  have hstop : -k + k = 0 := by ring
  simp only [get_call_report, hph, if_false, ite_false, h1, hstop,
    pySlice_stop_zero]
  simp

/-- Witness for C10: phone 100 has three matches in the sample store,
yet page 0 of size 1 answers the failure payload. -/
theorem report_page_zero_witness :
    pySlice (dbSelectByPhone sampleStore "100") (-1) 0 = [] ∧
    get_call_report sampleStore (some "100") 0 1 =
      ⟨.phoneNotValid, 500⟩ :=
  report_page_zero sampleStore "100" (by decide) 1 (by decide)
